import Mathlib

/-!
Verification of `multi_agent_framework.py` (Exios66/LangChained).

This file gives a shallow embedding of the script: the environment
validator `check_environment`, the pipeline state `AgentState`, the three
agent steps (`ResearchAgent`, `AnalysisAgent`, `WritingAgent`), the router
`route_based_on_role`, the per-node conditional-edge tables, and the graph
runner.  The external search and language-model clients are parameters
(deterministic stub functions), matching how the spec's testable
properties exercise the code.  Fallible accesses (Python's `[-1]` on an
empty list, a raised `EnvironmentError`) are modelled with `Option` /
`Except`.
-/

/-! ## Basic string machinery -/

/-- Does the first character list start with the second? -/
def leadsWith : List Char → List Char → Bool
  | _, [] => true
  | [], _ :: _ => false
  | a :: as, b :: bs => a == b && leadsWith as bs

/-- Does the first character list contain the second as a contiguous segment? -/
def containsSeg (p : List Char) : List Char → Bool
  | [] => leadsWith [] p
  | c :: t => leadsWith (c :: t) p || containsSeg p t

/-- Substring test: does `hay` contain `pat`? -/
def strContains (hay pat : String) : Bool :=
  containsSeg pat.data hay.data

/-! ## Environment validator (`check_environment`, lines 15-33) -/

/-- The `required_keys` dict of `check_environment`: key name paired with
its human-readable service label. -/
def required_keys : List (String × String) :=
  [("TAVILY_API_KEY", "Tavily Search API"),
   ("ANTHROPIC_API_KEY", "Anthropic Claude API"),
   ("LANGCHAIN_API_KEY", "LangSmith API")]

/-- Python `not os.getenv(key)`: true when the variable is unset or empty
(`os.getenv` returns `None` or a string; both `None` and `""` are falsy). -/
def envMissing (env : String → Option String) (key : String) : Bool :=
  match env key with
  | none => true
  | some v => v == ""

/-- The `missing_keys` list built by `check_environment`: for each required
key that is unset or empty, the entry `f"{service} ({key})"`. -/
def missing_keys (env : String → Option String) : List String :=
  (required_keys.filter (fun p => envMissing env p.1)).map
    (fun p => p.2 ++ " (" ++ p.1 ++ ")")

/-- `check_environment` (lines 15-33): raises `EnvironmentError` with the
assembled message when `missing_keys` is non-empty, else returns. -/
def check_environment (env : String → Option String) : Except String Unit :=
  let mk := missing_keys env
  if mk.isEmpty then Except.ok ()
  else Except.error
    ("Missing required API keys:\n" ++
      String.intercalate "\n" (mk.map (fun key => "- " ++ key)) ++
      "\n\nPlease set these environment variables or add them to your .env file")

/-! ## Pipeline state and step results (`AgentState`, lines 60-63) -/

/-- A chat message; only the `content` field of `BaseMessage` is read or
written by this script. -/
structure Message where
  content : String
  deriving DecidableEq

/-- The value held in the `research_data` field: the seed `{}` (an empty
dict) or the list of results returned by the search tool. -/
inductive RValue where
  | emptyDict : RValue
  | results : List String → RValue
  deriving DecidableEq

/-- Python `str()` of the `research_data` value as interpolated by the
f-strings: `{}` for the empty dict, `['a', 'b']` for a list of strings. -/
def pyStr : RValue → String
  | RValue.emptyDict => "\x7b\x7d"
  | RValue.results rs =>
      "[" ++ String.intercalate ", " (rs.map (fun s => "'" ++ s ++ "'")) ++ "]"

/-- `AgentState` (lines 60-63): message history, current actor tag,
research data. -/
structure AgentState where
  messages : List Message
  current_actor : String
  research_data : RValue
  deriving DecidableEq

/-- The partial state update returned by an agent `__call__`: new messages
to append, the overwritten actor tag, and — only when the dict literal
contains the key — a new `research_data` value (`none` models an absent
key). -/
structure StepResult where
  messages : List Message
  current_actor : String
  research_data : Option RValue
  deriving DecidableEq

/-- LangGraph's merge of a step's partial update into the state: the
`messages` channel is annotated with `add_messages`, so new messages are
appended; the other keys are overwritten when present in the update. -/
def applyUpdate (s : AgentState) (r : StepResult) : AgentState :=
  { messages := s.messages ++ r.messages
    current_actor := r.current_actor
    research_data := r.research_data.getD s.research_data }

/-! ## The three agent steps (lines 69-98) -/

/-- `ResearchAgent.__call__` (lines 69-78): reads the last message
(`none` models the `IndexError` on an empty history), queries the search
tool, wraps the result in a labelled message, sets `research_data`, and
hands off to `"analyst"`. -/
def researchAgent (search : String → List String) (s : AgentState) :
    Option StepResult :=
  (s.messages.getLast?).map (fun m =>
    let research_result := search m.content
    { messages := [⟨"Research data: " ++ pyStr (RValue.results research_result)⟩]
      research_data := some (RValue.results research_result)
      current_actor := "analyst" })

/-- `AnalysisAgent.__call__` (lines 80-87): prompts the LLM with the
research data, appends the reply content as a new message, hands off to
`"writer"`; the update dict has no `research_data` key. -/
def analysisAgent (llm : String → Message) (s : AgentState) : StepResult :=
  let analysis := llm ("Analyze this data: " ++ pyStr s.research_data)
  { messages := [⟨analysis.content⟩]
    current_actor := "writer"
    research_data := none }

/-- `WritingAgent.__call__` (lines 89-98): prompts the LLM with the last
message's content (`none` models the `IndexError` on an empty history),
appends the LLM's reply message verbatim, hands off to `"end"`. -/
def writingAgent (llm : String → Message) (s : AgentState) :
    Option StepResult :=
  (s.messages.getLast?).map (fun m =>
    { messages := [llm ("Generate final response using: " ++ m.content)]
      current_actor := "end"
      research_data := none })

/-! ## Router and conditional edges (lines 115-134) -/

/-- `route_based_on_role` (lines 115-116): identity lookup of the state's
`current_actor`. -/
def route_based_on_role (s : AgentState) : String :=
  s.current_actor

/-- LangGraph's `END` sentinel. -/
def endMark : String := "__end__"

/-- The conditional-edge table attached to each node by
`add_conditional_edges` (lines 118-134). -/
def tableOf : String → List (String × String)
  | "researcher" => [("analyst", "analyst"), ("writer", "writer"), ("end", endMark)]
  | "analyst" => [("writer", "writer"), ("end", endMark)]
  | "writer" => [("end", endMark)]
  | _ => []

/-- Modelled from the spec: the graph runtime that resolves a router tag
against a node's edge table is third-party code not in this repository.
Spec section 4.5: a fixed allow-list maps permitted tag values to a
successor or termination, and a tag outside the allow-list is undefined
behavior in the source (no defined RoutingError) — modelled as `none`. -/
def resolveRoute (table : List (String × String)) (tag : String) :
    Option String :=
  (table.find? (fun p => p.1 == tag)).map (fun p => p.2)

/-! ## Graph runner (lines 104-153) -/

/-- The step function executed at each named node of the workflow graph,
as registered by `add_node` (lines 107-109). -/
def nodeStep (search : String → List String) (llm : String → Message)
    (node : String) : AgentState → Option StepResult :=
  if node = "researcher" then fun s => researchAgent search s
  else if node = "analyst" then fun s => some (analysisAgent llm s)
  else if node = "writer" then fun s => writingAgent llm s
  else fun _ => none

/-- Modelled from the spec: the compiled workflow's executor is the
third-party graph runtime.  Spec section 4.6: starting from the entry
node, run the node's step, merge its update into the state, route on the
freshly produced `current_actor` via that node's edge table, and repeat
until the terminal marker; fuel bounds the recursion.  Returns the list
of node names executed, in order, and the final state. -/
def runApp (search : String → List String) (llm : String → Message) :
    Nat → String → AgentState → Option (List String × AgentState)
  | 0, _, _ => none
  | fuel + 1, node, s =>
      if node == endMark then some ([], s)
      else
        match nodeStep search llm node s with
        | none => none
        | some r =>
            let s2 := applyUpdate s r
            match resolveRoute (tableOf node) s2.current_actor with
            | none => none
            | some next =>
                match runApp search llm fuel next s2 with
                | none => none
                | some (tr, fin) => some (node :: tr, fin)

/-- The fixed seed input of the `__main__` block (lines 144-148). -/
def seedInput : AgentState :=
  { messages := [⟨"Research latest AI advancements"⟩]
    current_actor := "researcher"
    research_data := RValue.emptyDict }

/-! ## Concrete stubs used by witnesses -/

/-- Deterministic stub for the search adapter, as in the spec's Research
test: always returns `["result A", "result B"]`. -/
def stubSearch : String → List String := fun _ => ["result A", "result B"]

/-- Deterministic stub for the LLM adapter: echoes the prompt. -/
def stubLLM : String → Message := fun p => ⟨"LLM: " ++ p⟩

/-- A concrete environment with only the LLM key set (the spec's example:
search and tracing keys unset). -/
def envOnlyLLM : String → Option String :=
  fun k => if k == "ANTHROPIC_API_KEY" then some "sk-test" else none

/-- A concrete environment with all three keys set non-empty. -/
def envAllSet : String → Option String := fun _ => some "value"

/-- The closed set of actor tags named by the spec's data-model
invariant: the three node names plus the terminal marker. -/
def actorSet : List String := ["researcher", "analyst", "writer", "end"]

/-! ## Theorems -/

/-- C8: the Router is the pure identity lookup of `current_actor`: for
every state `route_based_on_role s = s.current_actor`, and any two states
with equal `current_actor` are routed identically (no hidden state). -/
theorem router_identity_pure (s t : AgentState)
    (h : s.current_actor = t.current_actor) :
    route_based_on_role s = s.current_actor ∧
      route_based_on_role s = route_based_on_role t := by
  constructor
  · rfl
  · simp [route_based_on_role, h]

theorem router_identity_pure_witness :
    route_based_on_role seedInput = seedInput.current_actor ∧
      route_based_on_role seedInput = route_based_on_role seedInput :=
  router_identity_pure seedInput seedInput rfl

/-- C10: on an empty message history, Research and Writing are undefined —
both index the last element of the empty sequence, so in the embedding
they return `none`, and for Research this happens regardless of the search
adapter (it fails before any search call). -/
theorem research_writing_need_nonempty_history
    (search : String → List String) (llm : String → Message)
    (s : AgentState) (h : s.messages = []) :
    researchAgent search s = none ∧ writingAgent llm s = none := by
  constructor <;> simp [researchAgent, writingAgent, h]

theorem research_writing_need_nonempty_history_witness :
    researchAgent stubSearch
        { messages := [], current_actor := "researcher",
          research_data := RValue.emptyDict } = none ∧
      writingAgent stubLLM
        { messages := [], current_actor := "researcher",
          research_data := RValue.emptyDict } = none :=
  research_writing_need_nonempty_history stubSearch stubLLM _ rfl

set_option maxRecDepth 100000 in
/-- C2: for every environment in which some required keys are unset or
empty, `check_environment` fails, and its message contains the `- label
(KEY)` line for a required key exactly when that key is missing — every
missing key is named, and no set key is. -/
theorem check_environment_lists_all_missing (env : String → Option String)
    (h : missing_keys env ≠ []) :
    ∃ msg, check_environment env = Except.error msg ∧
      ∀ p ∈ required_keys,
        strContains msg ("- " ++ p.2 ++ " (" ++ p.1 ++ ")") =
          envMissing env p.1 := by
  rcases hb1 : envMissing env "TAVILY_API_KEY" <;>
    rcases hb2 : envMissing env "ANTHROPIC_API_KEY" <;>
      rcases hb3 : envMissing env "LANGCHAIN_API_KEY" <;>
        simp only [missing_keys, required_keys, List.filter, hb1, hb2, hb3] at h ⊢ <;>
          first
          | exact absurd rfl h
          | (refine ⟨_, by simp [check_environment, missing_keys, required_keys,
                List.filter, hb1, hb2, hb3]; rfl, ?_⟩
             intro p hp
             fin_cases hp <;> simp only [hb1, hb2, hb3] <;> rfl)

theorem check_environment_lists_all_missing_witness :
    missing_keys envOnlyLLM ≠ [] ∧
      ∃ msg, check_environment envOnlyLLM = Except.error msg ∧
        ∀ p ∈ required_keys,
          strContains msg ("- " ++ p.2 ++ " (" ++ p.1 ++ ")") =
            envMissing envOnlyLLM p.1 :=
  ⟨by decide, check_environment_lists_all_missing envOnlyLLM (by decide)⟩

/-- C9: when all three required keys are set to non-empty strings,
`check_environment` returns without error. -/
theorem check_environment_ok (env : String → Option String)
    (h : ∀ p ∈ required_keys, ∃ v, env p.1 = some v ∧ v ≠ "") :
    check_environment env = Except.ok () := by
  obtain ⟨v1, hv1, hn1⟩ := h ("TAVILY_API_KEY", "Tavily Search API") (by simp [required_keys])
  obtain ⟨v2, hv2, hn2⟩ := h ("ANTHROPIC_API_KEY", "Anthropic Claude API") (by simp [required_keys])
  obtain ⟨v3, hv3, hn3⟩ := h ("LANGCHAIN_API_KEY", "LangSmith API") (by simp [required_keys])
  have e1 : (v1 == "") = false := beq_eq_false_iff_ne.mpr hn1
  have e2 : (v2 == "") = false := beq_eq_false_iff_ne.mpr hn2
  have e3 : (v3 == "") = false := beq_eq_false_iff_ne.mpr hn3
  simp [check_environment, missing_keys, required_keys, List.filter,
    envMissing, hv1, hv2, hv3, e1, e2, e3]

theorem check_environment_ok_witness :
    (∀ p ∈ required_keys, ∃ v, envAllSet p.1 = some v ∧ v ≠ "") ∧
      check_environment envAllSet = Except.ok () :=
  ⟨fun _ _ => ⟨"value", rfl, by decide⟩,
    check_environment_ok envAllSet (fun _ _ => ⟨"value", rfl, by decide⟩)⟩

/-- C4: for every state with a non-empty history, Research queries the
search adapter with the last message's text, appends exactly one message
consisting of the result serialization prefixed by the fixed label
`"Research data: "`, sets `research_data` to the raw result, and sets
`current_actor = "analyst"`. -/
theorem research_step_shape (search : String → List String) (s : AgentState)
    (h : s.messages ≠ []) :
    ∃ q r, s.messages.getLast? = some q ∧
      researchAgent search s = some r ∧
      r.messages =
        [⟨"Research data: " ++ pyStr (RValue.results (search q.content))⟩] ∧
      r.research_data = some (RValue.results (search q.content)) ∧
      r.current_actor = "analyst" := by
  obtain ⟨q, hq⟩ := Option.ne_none_iff_exists'.mp
    (mt List.getLast?_eq_none_iff.mp h)
  exact ⟨q,
    { messages := [⟨"Research data: " ++ pyStr (RValue.results (search q.content))⟩]
      current_actor := "analyst"
      research_data := some (RValue.results (search q.content)) },
    hq, by simp [researchAgent, hq], rfl, rfl, rfl⟩

/-- C4 witness: at the spec's concrete instance — seed message "Research
latest AI advancements" and the stub returning `["result A", "result B"]`
— and additionally the appended message's text contains both result
strings. -/
theorem research_step_shape_witness :
    (∃ q r, seedInput.messages.getLast? = some q ∧
        researchAgent stubSearch seedInput = some r ∧
        r.messages =
          [⟨"Research data: " ++
              pyStr (RValue.results (stubSearch q.content))⟩] ∧
        r.research_data = some (RValue.results (stubSearch q.content)) ∧
        r.current_actor = "analyst") ∧
      strContains ("Research data: " ++
        pyStr (RValue.results (stubSearch "Research latest AI advancements")))
        "result A" = true ∧
      strContains ("Research data: " ++
        pyStr (RValue.results (stubSearch "Research latest AI advancements")))
        "result B" = true :=
  ⟨research_step_shape stubSearch seedInput (by decide), by decide, by decide⟩

/-- C5: each step's returned `current_actor` is a fixed literal
independent of the input state and of the adapters' results — Research
gives "analyst", Analysis "writer", Writing "end" — so at the researcher
node the router is always given "analyst" and the table's "writer" and
"end" entries are dead branches. -/
theorem step_actor_literals (search : String → List String)
    (llm : String → Message) (s : AgentState) (r r3 : StepResult)
    (h1 : researchAgent search s = some r)
    (h3 : writingAgent llm s = some r3) :
    r.current_actor = "analyst" ∧
      (analysisAgent llm s).current_actor = "writer" ∧
      r3.current_actor = "end" ∧
      resolveRoute (tableOf "researcher") r.current_actor = some "analyst" ∧
      r.current_actor ≠ "writer" ∧ r.current_actor ≠ "end" := by
  rcases hq : s.messages.getLast? with _ | m <;>
    simp [researchAgent, writingAgent, hq] at h1 h3
  subst h1
  subst h3
  refine ⟨rfl, rfl, rfl, rfl, ?_, ?_⟩ <;> simp

/-- C5 witness: at the seed state with concrete stubs. -/
theorem step_actor_literals_witness :
    researchAgent stubSearch seedInput =
        some { messages := [⟨"Research data: ['result A', 'result B']"⟩]
               current_actor := "analyst"
               research_data :=
                 some (RValue.results ["result A", "result B"]) } ∧
      writingAgent stubLLM seedInput =
        some { messages :=
                 [⟨"LLM: Generate final response using: Research latest AI advancements"⟩]
               current_actor := "end"
               research_data := none } ∧
      ({ messages := [⟨"Research data: ['result A', 'result B']"⟩]
         current_actor := "analyst"
         research_data :=
           some (RValue.results ["result A", "result B"]) } : StepResult).current_actor
          = "analyst" ∧
      (analysisAgent stubLLM seedInput).current_actor = "writer" ∧
      ({ messages :=
           [⟨"LLM: Generate final response using: Research latest AI advancements"⟩]
         current_actor := "end"
         research_data := none } : StepResult).current_actor = "end" ∧
      resolveRoute (tableOf "researcher") "analyst" = some "analyst" ∧
      ("analyst" : String) ≠ "writer" ∧ ("analyst" : String) ≠ "end" :=
  ⟨by decide, by decide,
    step_actor_literals stubSearch stubLLM seedInput _ _ (by decide) (by decide)⟩

/-- Helper: whatever Research returns carries the actor tag "analyst". -/
theorem researchAgent_actor_eq (search : String → List String)
    (s : AgentState) (r : StepResult)
    (h : researchAgent search s = some r) : r.current_actor = "analyst" := by
  rcases hq : s.messages.getLast? with _ | m <;> simp [researchAgent, hq] at h
  subst h
  rfl

/-- Helper: whatever Writing returns carries the actor tag "end". -/
theorem writingAgent_actor_eq (llm : String → Message)
    (s : AgentState) (r : StepResult)
    (h : writingAgent llm s = some r) : r.current_actor = "end" := by
  rcases hq : s.messages.getLast? with _ | m <;> simp [writingAgent, hq] at h
  subst h
  rfl

/-- C6: starting from a state whose tag is in the closed set
\x7b"researcher", "analyst", "writer", "end"\x7d, any step the graph executes
returns a tag inside the set again, so no run reachable from the seed
ever hands the router a tag outside the set. -/
theorem actor_tags_closed (search : String → List String)
    (llm : String → Message) (node : String) (s : AgentState)
    (r : StepResult) (hs : s.current_actor ∈ actorSet)
    (h : nodeStep search llm node s = some r) :
    r.current_actor ∈ actorSet := by
  unfold nodeStep at h
  split_ifs at h
  · rw [researchAgent_actor_eq search s r h]
    simp [actorSet]
  · have : r = analysisAgent llm s := by exact (Option.some.injEq _ _).mp h.symm
    subst this
    simp [actorSet, analysisAgent]
  · rw [writingAgent_actor_eq llm s r h]
    simp [actorSet]

theorem actor_tags_closed_witness :
    seedInput.current_actor ∈ actorSet ∧
      (nodeStep stubSearch stubLLM "researcher" seedInput).isSome = true ∧
      ∀ r, nodeStep stubSearch stubLLM "researcher" seedInput = some r →
        r.current_actor ∈ actorSet :=
  ⟨by decide, by decide,
    fun r h => actor_tags_closed stubSearch stubLLM "researcher" seedInput r
      (by decide) h⟩

/-- C7: merging a StepResult only appends to the message history (the old
history is a prefix, in order), and Analysis and Writing — whose update
dicts carry no `research_data` key — leave `research_data` unchanged. -/
theorem merge_appends_preserves_research_data (llm : String → Message)
    (s : AgentState) (r r3 : StepResult)
    (h3 : writingAgent llm s = some r3) :
    (applyUpdate s r).messages = s.messages ++ r.messages ∧
      (applyUpdate s (analysisAgent llm s)).research_data = s.research_data ∧
      (applyUpdate s r3).research_data = s.research_data := by
  refine ⟨rfl, rfl, ?_⟩
  rcases hq : s.messages.getLast? with _ | m <;> simp [writingAgent, hq] at h3
  subst h3
  rfl

theorem merge_appends_preserves_research_data_witness :
    writingAgent stubLLM seedInput =
        some { messages :=
                 [⟨"LLM: Generate final response using: Research latest AI advancements"⟩]
               current_actor := "end"
               research_data := none } ∧
      (applyUpdate seedInput (analysisAgent stubLLM seedInput)).messages =
          seedInput.messages ++ (analysisAgent stubLLM seedInput).messages ∧
        (applyUpdate seedInput (analysisAgent stubLLM seedInput)).research_data =
          seedInput.research_data ∧
        (applyUpdate seedInput
              { messages :=
                  [⟨"LLM: Generate final response using: Research latest AI advancements"⟩]
                current_actor := "end"
                research_data := none }).research_data =
          seedInput.research_data :=
  ⟨by decide,
    merge_appends_preserves_research_data stubLLM seedInput
      (analysisAgent stubLLM seedInput) _ (by decide)⟩

/-- C3 counterexample: at the concrete unlisted tag "researcher" after
the analyst node, the routing lookup yields nothing at all — there is no
defined RoutingError anywhere in the source, so the claim that routing
"raises a defined RoutingError rather than silently returning nothing"
is false on this code. -/
theorem unlisted_tag_no_routing_error :
    resolveRoute (tableOf "analyst") "researcher" = none := rfl

/-- C3 amended: a `current_actor` tag not listed in the routing table of
the step that just ran resolves to no successor at all (`none`) — the
failure is latent and undefined, exactly as spec sections 4.5 and 7
describe; the repository defines no RoutingError. -/
theorem unlisted_tag_routes_to_none (node tag : String)
    (h : tag ∉ (tableOf node).map Prod.fst) :
    resolveRoute (tableOf node) tag = none := by
  simp only [resolveRoute, Option.map_eq_none']
  rw [List.find?_eq_none]
  intro x hx
  simp only [beq_iff_eq]
  intro hxe
  exact h (List.mem_map.mpr ⟨x, hx, hxe⟩)

theorem unlisted_tag_routes_to_none_witness :
    ("researcher" ∉ (tableOf "analyst").map Prod.fst) ∧
      resolveRoute (tableOf "analyst") "researcher" = none :=
  ⟨by decide, unlisted_tag_routes_to_none "analyst" "researcher" (by decide)⟩

/-- C1: with the search and LLM adapters replaced by any deterministic
stubs, running the compiled workflow from the fixed seed input executes
exactly the three nodes researcher, analyst, writer in that order and
terminates with `current_actor = "end"` and a 4-message history (the
seed plus one message appended by each step). -/
theorem pipeline_runs_three_steps (search : String → List String)
    (llm : String → Message) :
    ∃ fin, runApp search llm 4 "researcher" seedInput =
        some (["researcher", "analyst", "writer"], fin) ∧
      fin.current_actor = "end" ∧ fin.messages.length = 4 :=
  ⟨_, rfl, rfl, rfl⟩
